import Mathlib

/-!
Verification development for the superxmicrotools web application.

The definitions below are a shallow embedding of the server code:
the tweet-improvement route (its model gateway with Gemini primary and
OpenRouter fallback models, its markdown-fence normalizer, its response
shaping and history persistence) and the copycat route's validation.
External services (the hosted models, JSON.parse) are modelled as
explicit oracle parameters; JavaScript truthiness of optional string
fields is modelled by `truthyStr`.
-/

namespace SuperX

/-- JavaScript truthiness of an optional string field: absent (or non-string)
and the empty string are falsy. -/
def truthyStr : Option String → Bool
  | none => false
  | some s => !(s == "")

/-- Whitespace as matched by the regex class and by trim. -/
def isWS (c : Char) : Bool := c.isWhitespace

/-- Leading and trailing whitespace removal on character lists. -/
def trimChars (l : List Char) : List Char :=
  ((l.dropWhile isWS).reverse.dropWhile isWS).reverse

/-- Leading and trailing whitespace removal, as the trim calls of the
source. -/
def trimStr (s : String) : String :=
  String.mk (trimChars s.data)

/-- Outcome of one OpenRouter chat-completion attempt: the request may throw,
or return a completion whose message content may be missing. -/
inductive Attempt where
  | exn : Attempt
  | ok : Option String → Attempt
deriving DecidableEq, Repr

/-- The text the OpenRouter loop extracts from one attempt:
`completion.choices[0]?.message?.content?.trim()`, kept only when truthy
(an exception or empty/missing content yields nothing). -/
def attemptText : Attempt → Option String
  | Attempt.exn => none
  | Attempt.ok none => none
  | Attempt.ok (some s) =>
      let t := trimStr s
      if t == "" then none else some t

/-- The fixed OpenRouter fallback model list, in source order. -/
def MODELS : List String :=
  ["moonshotai/kimi-k2:free", "z-ai/glm-4.5-air:free", "deepseek/deepseek-r1-0528:free"]

/-- The OpenRouter fallback loop over a model list: try each model in order,
return the first truthy trimmed content, continue on exception or empty
content. -/
def tryModels (oracle : String → Attempt) : List String → Option String
  | [] => none
  | m :: rest =>
      match attemptText (oracle m) with
      | some t => some t
      | none => tryModels oracle rest

/-- The models the fallback loop actually calls, in call order. -/
def tryModelsTrace (oracle : String → Attempt) : List String → List String
  | [] => []
  | m :: rest =>
      match attemptText (oracle m) with
      | some _ => [m]
      | none => m :: tryModelsTrace oracle rest

/-- generateWithOpenRouter: returns null when the client key is falsy,
otherwise runs the fallback loop over MODELS. -/
def generateWithOpenRouter (apiKey : Option String) (oracle : String → Attempt) :
    Option String :=
  if truthyStr apiKey then tryModels oracle MODELS else none

/-- Outcome of the single Gemini request: the fetch may throw, return a
non-ok HTTP status, or return a body whose extracted text may be missing. -/
inductive GeminiOutcome where
  | exn : GeminiOutcome
  | httpError : GeminiOutcome
  | ok : Option String → GeminiOutcome
deriving DecidableEq, Repr

/-- generateWithGemini: returns null when GEMINI_API_KEY is absent, on a
thrown error, on a non-ok HTTP response, or when the extracted text is
falsy; otherwise returns the text unchanged. -/
def generateWithGemini (apiKey : Option String) (g : GeminiOutcome) : Option String :=
  if truthyStr apiKey then
    match g with
    | GeminiOutcome.exn => none
    | GeminiOutcome.httpError => none
    | GeminiOutcome.ok none => none
    | GeminiOutcome.ok (some t) => if t == "" then none else some t
  else none

/-- Environment configuration read by the route. -/
structure Env where
  openrouterKey : Option String
  geminiKey : Option String
deriving DecidableEq, Repr

/-- The generation step of the POST handler: try Gemini first, fall back to
OpenRouter when Gemini yielded nothing. -/
def gateway (env : Env) (g : GeminiOutcome) (oracle : String → Attempt) :
    Option String :=
  match generateWithGemini env.geminiKey g with
  | some t => some t
  | none => generateWithOpenRouter env.openrouterKey oracle

/-- One outbound backend call made by the gateway. -/
inductive CallEvent where
  | gemini : CallEvent
  | openrouter : String → CallEvent
deriving DecidableEq, Repr

/-- The backend calls the gateway makes for one prompt, in order: the Gemini
request happens exactly when its key is truthy; the OpenRouter attempts
happen exactly when Gemini yielded nothing and the OpenRouter key is
truthy. -/
def gatewayTrace (env : Env) (g : GeminiOutcome) (oracle : String → Attempt) :
    List CallEvent :=
  (if truthyStr env.geminiKey then [CallEvent.gemini] else []) ++
  (match generateWithGemini env.geminiKey g with
   | some _ => []
   | none =>
      if truthyStr env.openrouterKey then
        (tryModelsTrace oracle MODELS).map CallEvent.openrouter
      else [])

/-- First replace of the normalizer: if the text starts with three backticks
followed by "json" (case-insensitively), drop that opening fence and the
whitespace after it; otherwise leave the text unchanged. -/
def stripJsonFence (l : List Char) : List Char :=
  match l with
  | a :: b :: c :: d :: e :: f :: g :: rest =>
      if a == '`' && b == '`' && c == '`' &&
         d.toLower == 'j' && e.toLower == 's' && f.toLower == 'o' && g.toLower == 'n' then
        rest.dropWhile isWS
      else l
  | _ => l

/-- Second replace of the normalizer: if the text starts with three
backticks, drop them and the whitespace after them. -/
def stripOpenFence (l : List Char) : List Char :=
  match l with
  | a :: b :: c :: rest =>
      if a == '`' && b == '`' && c == '`' then rest.dropWhile isWS else l
  | _ => l

/-- Third replace of the normalizer: if the text ends with three backticks,
drop them and the whitespace before them. -/
def stripCloseFence (l : List Char) : List Char :=
  match l.reverse with
  | a :: b :: c :: rest =>
      if a == '`' && b == '`' && c == '`' then (rest.dropWhile isWS).reverse else l
  | _ => l

/-- The markdown-fence cleanup chain of the route, on character lists. -/
def cleanChars (l : List Char) : List Char :=
  trimChars (stripCloseFence (stripOpenFence (stripJsonFence l)))

/-- The markdown-fence cleanup chain of the route:
replace ```json opening fence, replace ``` opening fence, replace closing
``` fence, then trim. -/
def cleanText (s : String) : String :=
  String.mk (cleanChars s.data)

/-- A raw response wrapped in a leading markdown code fence and a trailing
``` fence. -/
def fenceWrap (fence : String) (s : String) : String :=
  fence ++ "\n" ++ s ++ "\n" ++ "```"

/-- Whether a character list starts with three backticks. -/
def fenceAtStart : List Char → Bool
  | a :: b :: c :: _ => a == '`' && b == '`' && c == '`'
  | _ => false

/-- Whether a character list ends with three backticks. -/
def fenceAtEnd (l : List Char) : Bool :=
  fenceAtStart l.reverse

/-- One tweet object of the model's JSON output. -/
structure TweetObj where
  hook : String
  body : String
  closing : String
deriving DecidableEq, Repr

/-- The fields of the parsed model JSON that the handler inspects:
the type discriminator when it is a string, the tweet object when present
and truthy, and the tweets array when present (an empty array is truthy in
JavaScript, so it is `some []`). -/
structure ParsedJson where
  ptype : Option String
  tweet : Option TweetObj
  tweets : Option (List TweetObj)
deriving DecidableEq, Repr

/-- Joining hook, body and closing with blank-line separators. -/
def formatTweet (t : TweetObj) : String :=
  t.hook ++ "\n\n" ++ t.body ++ "\n\n" ++ t.closing

/-- The reshaping of the parsed JSON into the displayed tweets: the single
branch needs a truthy tweet object, the thread branch a truthy tweets
array; anything else yields no tweets. -/
def formattedTweets (p : ParsedJson) : List String :=
  match p.ptype, p.tweet, p.tweets with
  | some "single", some t, _ => [formatTweet t]
  | some "thread", _, some ts => ts.map formatTweet
  | _, _, _ => []

/-- The two instruction templates of the tweet-improvement route. -/
inductive PromptTemplate where
  | single : PromptTemplate
  | thread : PromptTemplate
deriving DecidableEq, Repr

/-- Thread detection: explicit thread mode, or auto mode with input longer
than 500 characters. -/
def detectIsThread (mode : Option String) (text : String) : Bool :=
  mode == some "thread" || (mode == some "auto" && text.length > 500)

/-- The base template chosen for a request. -/
def selectTemplate (mode : Option String) (text : String) : PromptTemplate :=
  if detectIsThread mode text then PromptTemplate.thread else PromptTemplate.single

/-- The successful JSON body of the tweet-improvement response. -/
structure SuccessBody where
  success : Bool
  rtype : Option String
  tweets : List String
  isThread : Bool
  characterCount : Nat
  parseWarning : Option String
deriving DecidableEq, Repr

/-- An HTTP response of the route: 200 with a success body, or an error
status with a message. -/
inductive RouteResponse where
  | ok : SuccessBody → RouteResponse
  | err : Nat → String → RouteResponse
deriving DecidableEq, Repr

/-- The row the handler inserts into the tweets-history table. -/
structure HistoryInsert where
  visitorId : String
  originalText : String
  improvedText : String
  isThread : Bool
  mode : String
deriving DecidableEq, Repr

/-- The POST handler of the tweet-improvement route, from reading the body
fields to the response, also returning the history row it writes (if any).
The hosted backends and JSON.parse are oracle parameters. -/
def improveTweetPOST (env : Env) (text : Option String) (mode : Option String)
    (visitorId : Option String) (g : GeminiOutcome) (oracle : String → Attempt)
    (parse : String → Option ParsedJson) : RouteResponse × Option HistoryInsert :=
  if !truthyStr text then
    (RouteResponse.err 400 "Text is required", none)
  else if !truthyStr env.openrouterKey then
    (RouteResponse.err 500 "OPENROUTER_API_KEY not configured. Please add it to .env.local", none)
  else
    match gateway env g oracle with
    | none =>
        (RouteResponse.err 503
          "All AI models are currently unavailable. Please try again in a moment.", none)
    | some responseText =>
        let cleanedText := cleanText responseText
        match parse cleanedText with
        | none =>
            (RouteResponse.ok
              { success := true
                rtype := some "single"
                tweets := [cleanedText]
                isThread := false
                characterCount := cleanedText.length
                parseWarning := some "Response was not valid JSON, showing raw output" }, none)
        | some parsed =>
            let fmt := formattedTweets parsed
            let ins : Option HistoryInsert :=
              if truthyStr visitorId && fmt.length > 0 then
                some { visitorId := visitorId.getD ""
                       originalText := text.getD ""
                       improvedText := String.intercalate "\n---\n" fmt
                       isThread := parsed.ptype == some "thread"
                       mode := if truthyStr mode then mode.getD "auto" else "auto" }
              else none
            (RouteResponse.ok
              { success := true
                rtype := parsed.ptype
                tweets := fmt
                isThread := parsed.ptype == some "thread"
                characterCount := (fmt.head?.map String.length).getD 0
                parseWarning := none }, ins)

/-- Outcome of the copycat route's validation stage. -/
inductive CopycatCheck where
  | reject400 : String → CopycatCheck
  | reject500 : String → CopycatCheck
  | accepted : CopycatCheck
deriving DecidableEq, Repr

/-- Whether the validation outcome is an HTTP 400 rejection. -/
def isReject400 : CopycatCheck → Bool
  | CopycatCheck.reject400 _ => true
  | _ => false

/-- The validation stage of the copycat POST handler: require a truthy
original tweet text or URL; for any non-open mode require a present
non-empty suspects array of at most five entries; then require the
OpenRouter key. -/
def validateCopycat (originalTweet tweetUrl : Option String)
    (suspects : Option (List String)) (searchMode : Option String)
    (orKey : Option String) : CopycatCheck :=
  if !truthyStr originalTweet && !truthyStr tweetUrl then
    CopycatCheck.reject400 "Either original tweet text or tweet URL is required"
  else
    let isOpenSearch := searchMode == some "open"
    if !isOpenSearch &&
        (match suspects with
         | none => true
         | some l => l.length == 0) then
      CopycatCheck.reject400 "At least one suspect handle is required for targeted search"
    else if !isOpenSearch &&
        (match suspects with
         | none => false
         | some l => l.length > 5) then
      CopycatCheck.reject400 "Maximum 5 suspects allowed"
    else if !truthyStr orKey then
      CopycatCheck.reject500 "OPENROUTER_API_KEY not configured"
    else CopycatCheck.accepted

/-- Modelled from the spec: the history store's record and delete operation.
The history API route (src/app/api/history) is not among the provided
sources, only its client callers; section 4.4 of the specification states
that delete removes at most the record matching both the given id and the
given visitorId and is a no-op otherwise. -/
structure HistoryRecord where
  id : String
  visitorId : String
  originalText : String
  improvedText : String
  isThread : Bool
  mode : String
deriving DecidableEq, Repr

/-- Modelled from the spec: deleteHistory removes exactly the stored records
matching both the requested id and the requesting visitorId, and never
fails. -/
def deleteHistory (store : List HistoryRecord) (id visitorId : String) :
    List HistoryRecord :=
  store.filter (fun r => !(r.id == id && r.visitorId == visitorId))

/-! Helper lemmas about the OpenRouter fallback loop. -/

theorem tryModels_all_fail (oracle : String → Attempt) (ms : List String)
    (h : ∀ m ∈ ms, attemptText (oracle m) = none) :
    tryModels oracle ms = none ∧ tryModelsTrace oracle ms = ms := by
  induction ms with
  | nil => exact ⟨rfl, rfl⟩
  | cons m rest ih =>
      have hm := h m (List.mem_cons_self m rest)
      have ihr := ih (fun x hx => h x (List.mem_cons_of_mem m hx))
      refine ⟨?_, ?_⟩
      · simp [tryModels, hm, ihr.1]
      · simp [tryModelsTrace, hm, ihr.2]

theorem tryModels_first_success (oracle : String → Attempt) (ms : List String) (t : String)
    (h : tryModels oracle ms = some t) :
    ∃ k m, ms.get? k = some m ∧ attemptText (oracle m) = some t ∧
      tryModelsTrace oracle ms = ms.take (k + 1) ∧
      ∀ j m', j < k → ms.get? j = some m' → attemptText (oracle m') = none := by
  induction ms with
  | nil => simp [tryModels] at h
  | cons m rest ih =>
      cases hm : attemptText (oracle m) with
      | some t' =>
          have ht : t' = t := by
            have := h
            simp only [tryModels, hm] at this
            exact Option.some.inj this
          subst ht
          refine ⟨0, m, rfl, hm, ?_, ?_⟩
          · simp [tryModelsTrace, hm]
          · intro j m' hj _
            exact absurd hj (Nat.not_lt_zero j)
      | none =>
          have h' : tryModels oracle rest = some t := by
            have := h
            simp only [tryModels, hm] at this
            exact this
          obtain ⟨k, mm, hget, hat, htr, hprev⟩ := ih h'
          refine ⟨k + 1, mm, by simpa using hget, hat, ?_, ?_⟩
          · simp [tryModelsTrace, hm, htr]
          · intro j m' hj hg
            cases j with
            | zero =>
                have : m' = m := by simpa using hg.symm
                subst this
                exact hm
            | succ j' =>
                exact hprev j' m' (by omega) (by simpa using hg)

/-- The claimed call-order property of C1: every Gemini call is preceded by
some OpenRouter attempt. -/
def openrouterAttemptedFirst (tr : List CallEvent) : Prop :=
  ∀ k, tr.get? k = some CallEvent.gemini →
    ∃ j m, j < k ∧ tr.get? j = some (CallEvent.openrouter m)

/-- C1 counterexample: with both keys configured and Gemini returning text,
the gateway's only backend call is the Gemini one, so no OpenRouter attempt
precedes it — the claim that OpenRouter is the primary backend attempted
before any Gemini call is false on the code. -/
theorem C1_counterexample :
    ¬ openrouterAttemptedFirst
        (gatewayTrace ⟨some "orkey", some "gkey"⟩ (GeminiOutcome.ok (some "reply"))
          (fun _ => Attempt.exn)) := by
  intro h
  obtain ⟨j, m, hj, _⟩ := h 0 (by decide)
  exact absurd hj (Nat.not_lt_zero j)

/-- C1 amended: in the tweet-improvement pipeline the gateway attempts
Gemini as the primary backend first and falls back to OpenRouter only when
that primary attempt yields no text: whenever some OpenRouter model is
attempted, the Gemini step returned nothing, and when the Gemini key is
configured the Gemini call is the first backend call of the request. -/
theorem C1_gemini_first_openrouter_fallback (env : Env) (g : GeminiOutcome)
    (oracle : String → Attempt) (k : Nat) (m : String)
    (hk : (gatewayTrace env g oracle).get? k = some (CallEvent.openrouter m)) :
    generateWithGemini env.geminiKey g = none ∧
      (truthyStr env.geminiKey = true →
        (gatewayTrace env g oracle).get? 0 = some CallEvent.gemini) := by
  cases hgem : generateWithGemini env.geminiKey g with
  | some t =>
      exfalso
      unfold gatewayTrace at hk
      rw [hgem] at hk
      by_cases hg : truthyStr env.geminiKey = true
      · cases k with
        | zero => simp [hg] at hk
        | succ n => simp [hg] at hk
      · simp [hg] at hk
  | none =>
      refine ⟨rfl, fun hg => ?_⟩
      unfold gatewayTrace
      rw [hgem]
      simp [hg]

/-- C1 amended witness at a concrete failing Gemini call. -/
theorem C1_gemini_first_witness :
    generateWithGemini (Env.mk (some "orkey") (some "gkey")).geminiKey GeminiOutcome.exn = none :=
  (C1_gemini_first_openrouter_fallback ⟨some "orkey", some "gkey"⟩ GeminiOutcome.exn
    (fun _ => Attempt.ok (some "reply")) 1 "moonshotai/kimi-k2:free" (by decide)).1

/-- C2: when the primary (Gemini) attempt yields no text and the OpenRouter
key is configured, the gateway runs the fixed ordered three-model fallback
list: if every model throws or returns empty content all three are
attempted in order and the gateway yields nothing, and if the gateway
yields text it is the first non-empty result, only the models up to and
including the first success were attempted, and every earlier model
failed. -/
theorem C2_fallback_contract (env : Env) (g : GeminiOutcome) (oracle : String → Attempt)
    (hg : generateWithGemini env.geminiKey g = none)
    (hkey : truthyStr env.openrouterKey = true) :
    MODELS.length = 3 ∧
    gateway env g oracle = tryModels oracle MODELS ∧
    ((∀ m ∈ MODELS, attemptText (oracle m) = none) →
      gateway env g oracle = none ∧ tryModelsTrace oracle MODELS = MODELS) ∧
    (∀ t, gateway env g oracle = some t →
      ∃ k m, MODELS.get? k = some m ∧ attemptText (oracle m) = some t ∧
        tryModelsTrace oracle MODELS = MODELS.take (k + 1) ∧
        ∀ j m', j < k → MODELS.get? j = some m' → attemptText (oracle m') = none) := by
  have hgw : gateway env g oracle = tryModels oracle MODELS := by
    unfold gateway generateWithOpenRouter
    rw [hg, hkey]
    simp
  refine ⟨rfl, hgw, ?_, ?_⟩
  · intro hall
    have := tryModels_all_fail oracle MODELS hall
    exact ⟨hgw.trans this.1, this.2⟩
  · intro t ht
    exact tryModels_first_success oracle MODELS t (hgw.symm.trans ht)

/-- C2 witness: the fallback list has exactly three entries, instantiated
at a request whose Gemini key is absent. -/
theorem C2_fallback_contract_witness : MODELS.length = 3 :=
  (C2_fallback_contract ⟨some "orkey", none⟩ GeminiOutcome.exn (fun _ => Attempt.exn)
    rfl rfl).1

/-- C3: with mode auto, input of at most 500 characters selects the
single-tweet template and longer input the thread template; an explicit
single or thread mode fixes the template regardless of length. -/
theorem C3_template_selection (mode : Option String) (text : String) :
    (mode = some "auto" →
      (text.length ≤ 500 → selectTemplate mode text = PromptTemplate.single) ∧
      (text.length > 500 → selectTemplate mode text = PromptTemplate.thread)) ∧
    (mode = some "single" → selectTemplate mode text = PromptTemplate.single) ∧
    (mode = some "thread" → selectTemplate mode text = PromptTemplate.thread) := by
  refine ⟨?_, ?_, ?_⟩
  · rintro rfl
    constructor
    · intro h
      simp [selectTemplate, detectIsThread, Nat.not_lt.mpr h]
    · intro h
      simp [selectTemplate, detectIsThread, h]
  · rintro rfl
    simp [selectTemplate, detectIsThread]
  · rintro rfl
    simp [selectTemplate, detectIsThread]

/-- C3 witness: a 34-character input in auto mode selects the single-tweet
template. -/
theorem C3_template_selection_witness :
    selectTemplate (some "auto") "Hello world. This is a short test." = PromptTemplate.single :=
  ((C3_template_selection (some "auto") "Hello world. This is a short test.").1 rfl).1
    (by decide)

/-- C7: the copycat route rejects a targeted search with a missing or empty
suspects list and with more than five suspects with HTTP 400, accepts
exactly five suspects, and in open mode accepts a request without any
suspects. -/
theorem C7_suspect_validation (ot tu key : Option String) (suspects : List String) :
    isReject400 (validateCopycat ot tu none (some "targeted") key) = true ∧
    isReject400 (validateCopycat ot tu (some []) (some "targeted") key) = true ∧
    (suspects.length = 6 →
      isReject400 (validateCopycat ot tu (some suspects) (some "targeted") key) = true) ∧
    (suspects.length = 5 → (truthyStr ot || truthyStr tu) = true → truthyStr key = true →
      validateCopycat ot tu (some suspects) (some "targeted") key = CopycatCheck.accepted) ∧
    ((truthyStr ot || truthyStr tu) = true → truthyStr key = true →
      validateCopycat ot tu none (some "open") key = CopycatCheck.accepted) := by
  unfold validateCopycat
  refine ⟨?_, ?_, ?_, ?_, ?_⟩
  · by_cases h : (!truthyStr ot && !truthyStr tu) = true <;> simp [h, isReject400]
  · by_cases h : (!truthyStr ot && !truthyStr tu) = true <;> simp [h, isReject400]
  · intro h6
    by_cases h : (!truthyStr ot && !truthyStr tu) = true <;> simp [h, h6, isReject400]
  · intro h5 hot hkey
    have h : (!truthyStr ot && !truthyStr tu) = false := by
      rcases Bool.or_eq_true_iff.mp hot with h | h <;> simp [h]
    simp [h, h5, hkey]
  · intro hot hkey
    have h : (!truthyStr ot && !truthyStr tu) = false := by
      rcases Bool.or_eq_true_iff.mp hot with h | h <;> simp [h]
    simp [h, hkey]

/-- C7 witness: a targeted search with exactly five suspects, an original
tweet text and a configured key is accepted. -/
theorem C7_suspect_validation_witness :
    validateCopycat (some "Unique catchy phrase") none
      (some ["a", "b", "c", "d", "e"]) (some "targeted") (some "k") = CopycatCheck.accepted :=
  (C7_suspect_validation (some "Unique catchy phrase") none (some "k")
    ["a", "b", "c", "d", "e"]).2.2.2.1 rfl (by decide) (by decide)

/-- C8 (history delete is scoped to the owner, modelled from the spec):
a record whose visitorId differs from the requesting one is still in the
store after the delete, and the delete never errors or adds records: every
record of the result was in the store. -/
theorem C8_delete_scoped_to_owner (store : List HistoryRecord) (id vid : String)
    (r : HistoryRecord) (hr : r ∈ store) (hown : r.visitorId ≠ vid) :
    r ∈ deleteHistory store id vid ∧
      ∀ r' ∈ deleteHistory store id vid, r' ∈ store := by
  constructor
  · refine List.mem_filter.mpr ⟨hr, ?_⟩
    simp [hown]
  · intro r' hr'
    exact (List.mem_filter.mp hr').1

/-- C8 witness: a concrete record owned by another visitor survives the
delete call. -/
theorem C8_delete_scoped_witness :
    (⟨"1", "alice", "orig", "better", false, "auto"⟩ : HistoryRecord) ∈
      deleteHistory [⟨"1", "alice", "orig", "better", false, "auto"⟩] "1" "bob" :=
  (C8_delete_scoped_to_owner [⟨"1", "alice", "orig", "better", false, "auto"⟩] "1" "bob"
    ⟨"1", "alice", "orig", "better", false, "auto"⟩ (List.mem_singleton.mpr rfl)
    (by decide)).1

/-- C4: when the cleaned model response fails to parse as JSON, the handler
responds HTTP 200 with success, the parse warning flag, and a single tweet
equal to the cleaned raw text, and writes no history; a parse failure is
never an error status. -/
theorem C4_parse_failure_soft (env : Env) (text mode visitorId : Option String)
    (g : GeminiOutcome) (oracle : String → Attempt) (parse : String → Option ParsedJson)
    (resp : String)
    (htext : truthyStr text = true) (hkey : truthyStr env.openrouterKey = true)
    (hgw : gateway env g oracle = some resp)
    (hparse : parse (cleanText resp) = none) :
    improveTweetPOST env text mode visitorId g oracle parse =
      (RouteResponse.ok
        { success := true
          rtype := some "single"
          tweets := [cleanText resp]
          isThread := false
          characterCount := (cleanText resp).length
          parseWarning := some "Response was not valid JSON, showing raw output" }, none) := by
  unfold improveTweetPOST
  rw [htext, hkey, hgw]
  simp [hparse]

/-- C4 witness at a concrete non-JSON model response. -/
theorem C4_parse_failure_soft_witness :
    improveTweetPOST ⟨some "k", some "g"⟩ (some "hi") none none
        (GeminiOutcome.ok (some "notjson")) (fun _ => Attempt.exn) (fun _ => none) =
      (RouteResponse.ok
        { success := true
          rtype := some "single"
          tweets := [cleanText "notjson"]
          isThread := false
          characterCount := (cleanText "notjson").length
          parseWarning := some "Response was not valid JSON, showing raw output" }, none) :=
  C4_parse_failure_soft ⟨some "k", some "g"⟩ (some "hi") none none
    (GeminiOutcome.ok (some "notjson")) (fun _ => Attempt.exn) (fun _ => none)
    "notjson" rfl rfl (by decide) rfl

/-- C5: when the Gemini key is absent (so the primary attempt is skipped)
and all three fallback models throw or return empty content, the handler
responds HTTP 503 with the unavailability message and writes no history
record. -/
theorem C5_all_backends_fail (orKey text mode visitorId : Option String)
    (g : GeminiOutcome) (oracle : String → Attempt) (parse : String → Option ParsedJson)
    (htext : truthyStr text = true) (hkey : truthyStr orKey = true)
    (hall : ∀ m ∈ MODELS, attemptText (oracle m) = none) :
    improveTweetPOST ⟨orKey, none⟩ text mode visitorId g oracle parse =
      (RouteResponse.err 503
        "All AI models are currently unavailable. Please try again in a moment.", none) := by
  have hgw : gateway ⟨orKey, none⟩ g oracle = none := by
    unfold gateway generateWithGemini generateWithOpenRouter
    simp [truthyStr, hkey, (tryModels_all_fail oracle MODELS hall).1]
  unfold improveTweetPOST
  rw [htext, hkey, hgw]
  simp

/-- C5 witness: all three models throwing yields the 503 response. -/
theorem C5_all_backends_fail_witness :
    improveTweetPOST ⟨some "k", none⟩ (some "hi") none (some "v")
        GeminiOutcome.exn (fun _ => Attempt.exn) (fun _ => none) =
      (RouteResponse.err 503
        "All AI models are currently unavailable. Please try again in a moment.", none) :=
  C5_all_backends_fail (some "k") (some "hi") none (some "v")
    GeminiOutcome.exn (fun _ => Attempt.exn) (fun _ => none)
    rfl rfl (fun _ _ => rfl)

/-- Helper: when the parsed JSON matches neither the single shape with a
tweet object nor the thread shape with a tweets array, no tweets are
formatted. -/
theorem formattedTweets_eq_nil (p : ParsedJson)
    (hns : ¬(p.ptype = some "single" ∧ p.tweet ≠ none))
    (hnt : ¬(p.ptype = some "thread" ∧ p.tweets ≠ none)) :
    formattedTweets p = [] := by
  obtain ⟨pt, tw, tws⟩ := p
  simp only [ParsedJson.mk.injEq] at hns hnt ⊢
  rcases pt with _ | s
  · rcases tw with _ | t <;> rcases tws with _ | ts <;> rfl
  · by_cases hs1 : s = "single"
    · subst hs1
      have htw : tw = none := by
        by_contra hne
        exact hns ⟨rfl, hne⟩
      subst htw
      rcases tws with _ | ts <;> rfl
    · by_cases hs2 : s = "thread"
      · subst hs2
        have htws : tws = none := by
          by_contra hne
          exact hnt ⟨rfl, hne⟩
        subst htws
        rcases tw with _ | t <;> rfl
      · rcases tw with _ | t <;> rcases tws with _ | ts <;>
          simp [formattedTweets, hs1, hs2]

/-- C9: on a parsed response the handler returns exactly the formatted
tweets; for type single that is the one string joining hook, body and
closing with blank lines, for type thread one such string per entry in
order; and any persisted history row joins those tweets with the literal
separator between newlines. -/
theorem C9_formatting (env : Env) (text mode visitorId : Option String)
    (g : GeminiOutcome) (oracle : String → Attempt) (parse : String → Option ParsedJson)
    (resp : String) (parsed : ParsedJson)
    (htext : truthyStr text = true) (hkey : truthyStr env.openrouterKey = true)
    (hgw : gateway env g oracle = some resp)
    (hparse : parse (cleanText resp) = some parsed) :
    (improveTweetPOST env text mode visitorId g oracle parse).1 =
      RouteResponse.ok
        { success := true
          rtype := parsed.ptype
          tweets := formattedTweets parsed
          isThread := parsed.ptype == some "thread"
          characterCount := ((formattedTweets parsed).head?.map String.length).getD 0
          parseWarning := none } ∧
    (∀ t, parsed.ptype = some "single" → parsed.tweet = some t →
      formattedTweets parsed = [t.hook ++ "\n\n" ++ t.body ++ "\n\n" ++ t.closing]) ∧
    (∀ ts, parsed.ptype = some "thread" → parsed.tweets = some ts →
      formattedTweets parsed = ts.map (fun t => t.hook ++ "\n\n" ++ t.body ++ "\n\n" ++ t.closing)) ∧
    (∀ ins, (improveTweetPOST env text mode visitorId g oracle parse).2 = some ins →
      ins.improvedText = String.intercalate "\n---\n" (formattedTweets parsed)) := by
  have hmain : improveTweetPOST env text mode visitorId g oracle parse =
      (RouteResponse.ok
        { success := true
          rtype := parsed.ptype
          tweets := formattedTweets parsed
          isThread := parsed.ptype == some "thread"
          characterCount := ((formattedTweets parsed).head?.map String.length).getD 0
          parseWarning := none },
       if truthyStr visitorId && (formattedTweets parsed).length > 0 then
         some { visitorId := visitorId.getD ""
                originalText := text.getD ""
                improvedText := String.intercalate "\n---\n" (formattedTweets parsed)
                isThread := parsed.ptype == some "thread"
                mode := if truthyStr mode then mode.getD "auto" else "auto" }
       else none) := by
    unfold improveTweetPOST
    rw [htext, hkey, hgw]
    simp [hparse]
  refine ⟨by rw [hmain], ?_, ?_, ?_⟩
  · intro t hpt htw
    obtain ⟨pt, tw, tws⟩ := parsed
    simp only at hpt htw
    subst hpt; subst htw
    rcases tws with _ | ts <;> rfl
  · intro ts hpt htws
    obtain ⟨pt, tw, tws⟩ := parsed
    simp only at hpt htws
    subst hpt; subst htws
    rcases tw with _ | t <;> rfl
  · intro ins hins
    rw [hmain] at hins
    simp only at hins
    by_cases hc : (truthyStr visitorId && (formattedTweets parsed).length > 0) = true
    · rw [if_pos hc] at hins
      cases hins
      rfl
    · rw [if_neg hc] at hins
      cases hins

/-- C9 witness: a concrete single-type parse formats hook, body and closing
with blank-line separators. -/
theorem C9_formatting_witness :
    formattedTweets ⟨some "single", some ⟨"h", "b", "c"⟩, none⟩ =
      ["h" ++ "\n\n" ++ "b" ++ "\n\n" ++ "c"] :=
  (C9_formatting ⟨some "k", some "g"⟩ (some "hi") none none
      (GeminiOutcome.ok (some "x")) (fun _ => Attempt.exn)
      (fun _ => some ⟨some "single", some ⟨"h", "b", "c"⟩, none⟩)
      "x" ⟨some "single", some ⟨"h", "b", "c"⟩, none⟩
      rfl rfl (by decide) rfl).2.1 ⟨"h", "b", "c"⟩ rfl rfl

/-- C10: a response that parses as JSON but matches neither recognized
shape still yields HTTP 200 with success, an empty tweets sequence and
characterCount 0, and no history row is written even with a visitorId. -/
theorem C10_unrecognized_shape (env : Env) (text mode visitorId : Option String)
    (g : GeminiOutcome) (oracle : String → Attempt) (parse : String → Option ParsedJson)
    (resp : String) (parsed : ParsedJson)
    (htext : truthyStr text = true) (hkey : truthyStr env.openrouterKey = true)
    (hgw : gateway env g oracle = some resp)
    (hparse : parse (cleanText resp) = some parsed)
    (hns : ¬(parsed.ptype = some "single" ∧ parsed.tweet ≠ none))
    (hnt : ¬(parsed.ptype = some "thread" ∧ parsed.tweets ≠ none)) :
    improveTweetPOST env text mode visitorId g oracle parse =
      (RouteResponse.ok
        { success := true
          rtype := parsed.ptype
          tweets := []
          isThread := parsed.ptype == some "thread"
          characterCount := 0
          parseWarning := none }, none) := by
  have hnil := formattedTweets_eq_nil parsed hns hnt
  unfold improveTweetPOST
  rw [htext, hkey, hgw]
  simp [hparse, hnil]

/-- C10 witness: a parsed object with an unrecognized type discriminator. -/
theorem C10_unrecognized_shape_witness :
    improveTweetPOST ⟨some "k", some "g"⟩ (some "hi") none (some "v")
        (GeminiOutcome.ok (some "x")) (fun _ => Attempt.exn)
        (fun _ => some ⟨some "other", none, none⟩) =
      (RouteResponse.ok
        { success := true
          rtype := some "other"
          tweets := []
          isThread := (some "other" : Option String) == some "thread"
          characterCount := 0
          parseWarning := none }, none) :=
  C10_unrecognized_shape ⟨some "k", some "g"⟩ (some "hi") none (some "v")
    (GeminiOutcome.ok (some "x")) (fun _ => Attempt.exn)
    (fun _ => some ⟨some "other", none, none⟩)
    "x" ⟨some "other", none, none⟩
    rfl rfl (by decide) rfl (by simp) (by simp)

/-! Helper lemmas about whitespace, fences and the normalizer chain. -/

theorem isWS_ne_backtick {c : Char} (h : isWS c = true) : (c == '`') = false := by
  cases hc : c == '`'
  · rfl
  · exfalso
    have hce : c = '`' := beq_iff_eq.mp hc
    subst hce
    exact absurd h (by decide)

theorem fenceAtStart_ws_head {c : Char} (l : List Char) (h : isWS c = true) :
    fenceAtStart (c :: l) = false := by
  rcases l with _ | ⟨b, _ | ⟨d, l3⟩⟩
  · rfl
  · rfl
  · simp [fenceAtStart, isWS_ne_backtick h]

theorem dropWhile_ws_nil_of_all (w : List Char) (h : ∀ c ∈ w, isWS c = true) :
    w.dropWhile isWS = [] :=
  List.dropWhile_eq_nil_iff.mpr h

theorem dropWhile_ws_append (w l : List Char) (h : ∀ c ∈ w, isWS c = true) :
    (w ++ l).dropWhile isWS = l.dropWhile isWS := by
  rw [List.dropWhile_append, dropWhile_ws_nil_of_all w h]
  rfl

theorem dropWhile_ws_fix_head {c : Char} {l : List Char} (h : isWS c = false) :
    (c :: l).dropWhile isWS = c :: l := by
  rw [List.dropWhile_cons, if_neg (by simp [h])]

theorem head_not_ws_of_fix {c : Char} {l : List Char}
    (h : (c :: l).dropWhile isWS = c :: l) : isWS c = false := by
  cases hc : isWS c
  · rfl
  · exfalso
    rw [List.dropWhile_cons, if_pos hc] at h
    have hlen := (List.dropWhile_sublist (l := l) isWS).length_le
    rw [h, List.length_cons] at hlen
    omega

theorem dropWhile_ws_idem (l : List Char) :
    (l.dropWhile isWS).dropWhile isWS = l.dropWhile isWS := by
  induction l with
  | nil => rfl
  | cons c l ih =>
      cases hc : isWS c
      · rw [dropWhile_ws_fix_head hc, dropWhile_ws_fix_head hc]
      · rw [List.dropWhile_cons, if_pos hc]
        exact ih

theorem stripJsonFence_id (l : List Char) (h : fenceAtStart l = false) :
    stripJsonFence l = l := by
  unfold stripJsonFence
  split
  · rename_i a b c d e f g rest
    rw [if_neg]
    intro hc
    simp only [Bool.and_eq_true] at hc
    simp [fenceAtStart, hc.1.1.1.1.1.1, hc.1.1.1.1.1.2, hc.1.1.1.1.2] at h
  · rfl

theorem stripOpenFence_id (l : List Char) (h : fenceAtStart l = false) :
    stripOpenFence l = l := by
  unfold stripOpenFence
  split
  · rename_i a b c rest
    rw [if_neg]
    intro hc
    simp only [Bool.and_eq_true] at hc
    simp [fenceAtStart, hc.1.1, hc.1.2, hc.2] at h
  · rfl

theorem stripCloseFence_id (l : List Char) (h : fenceAtEnd l = false) :
    stripCloseFence l = l := by
  unfold fenceAtEnd at h
  unfold stripCloseFence
  split
  · rename_i a b c rest heq
    rw [heq] at h
    rw [if_neg]
    intro hc
    simp only [Bool.and_eq_true] at hc
    simp [fenceAtStart, hc.1.1, hc.1.2, hc.2] at h
  · rfl

theorem stripCloseFence_of_rev (l rest : List Char)
    (h : l.reverse = '`' :: '`' :: '`' :: rest) :
    stripCloseFence l = (rest.dropWhile isWS).reverse := by
  unfold stripCloseFence
  rw [h]
  rfl

theorem trimChars_fix (t : List Char) (ht1 : t.dropWhile isWS = t)
    (ht2 : t.reverse.dropWhile isWS = t.reverse) : trimChars t = t := by
  unfold trimChars
  rw [ht1, ht2, List.reverse_reverse]

theorem fenceAtStart_append_padded (t w x : List Char)
    (ht : fenceAtStart t = false)
    (hw : ∀ c ∈ w, isWS c = true) (hwne : w ≠ []) :
    fenceAtStart (t ++ (w ++ x)) = false := by
  rcases t with _ | ⟨c1, _ | ⟨c2, _ | ⟨c3, t3⟩⟩⟩
  · rcases w with _ | ⟨b, w'⟩
    · exact absurd rfl hwne
    · exact fenceAtStart_ws_head _ (hw b (List.mem_cons_self b w'))
  · rcases w with _ | ⟨b, w'⟩
    · exact absurd rfl hwne
    · have hb := isWS_ne_backtick (hw b (List.mem_cons_self b w'))
      rcases hwx : w' ++ x with _ | ⟨e, r⟩
      · simp [hwx, fenceAtStart]
      · simp [hwx, fenceAtStart, hb]
  · rcases w with _ | ⟨b, w'⟩
    · exact absurd rfl hwne
    · have hb := isWS_ne_backtick (hw b (List.mem_cons_self b w'))
      simp [fenceAtStart, hb]
  · simp only [List.cons_append]
    simp [fenceAtStart] at ht ⊢
    intro h1 h2
    intro h3
    exact ht h1 h2 h3

theorem fenceAtStart_sandwich (w1 t w2 : List Char)
    (hw1 : ∀ c ∈ w1, isWS c = true) (hw2 : ∀ c ∈ w2, isWS c = true)
    (hs : fenceAtStart t = false) :
    fenceAtStart (w1 ++ (t ++ w2)) = false := by
  rcases w1 with _ | ⟨c, w1'⟩
  · rcases w2 with _ | ⟨b, w2'⟩
    · simpa using hs
    · have := fenceAtStart_append_padded t (b :: w2') [] hs hw2 (by simp)
      simpa using this
  · exact fenceAtStart_ws_head _ (hw1 c (List.mem_cons_self c w1'))

theorem trimChars_decomp (w1 t w2 : List Char)
    (hw1 : ∀ c ∈ w1, isWS c = true) (hw2 : ∀ c ∈ w2, isWS c = true)
    (ht1 : t.dropWhile isWS = t) (ht2 : t.reverse.dropWhile isWS = t.reverse) :
    trimChars (w1 ++ (t ++ w2)) = t := by
  unfold trimChars
  rw [dropWhile_ws_append w1 (t ++ w2) hw1]
  rcases t with _ | ⟨c, t'⟩
  · rw [List.nil_append, dropWhile_ws_nil_of_all w2 hw2]
    rfl
  · have hc : isWS c = false := head_not_ws_of_fix ht1
    rw [List.cons_append, dropWhile_ws_fix_head hc, ← List.cons_append,
      List.reverse_append,
      dropWhile_ws_append _ _ (fun x hx => hw2 x (List.mem_reverse.mp hx)),
      ht2, List.reverse_reverse]

theorem trim_decomposition (l : List Char) :
    ∃ w1 w2, l = w1 ++ (trimChars l ++ w2) ∧
      (∀ c ∈ w1, isWS c = true) ∧ (∀ c ∈ w2, isWS c = true) ∧
      (trimChars l).dropWhile isWS = trimChars l ∧
      (trimChars l).reverse.dropWhile isWS = (trimChars l).reverse := by
  have hsplit : ∀ r : List Char,
      r = (r.reverse.dropWhile isWS).reverse ++ (r.reverse.takeWhile isWS).reverse := by
    intro r
    conv_lhs => rw [← List.reverse_reverse r,
      ← List.takeWhile_append_dropWhile (p := isWS) (l := r.reverse)]
    rw [List.reverse_append]
  refine ⟨l.takeWhile isWS, ((l.dropWhile isWS).reverse.takeWhile isWS).reverse,
    ?_, ?_, ?_, ?_, ?_⟩
  · conv_lhs => rw [← List.takeWhile_append_dropWhile (p := isWS) (l := l)]
    congr 1
    exact hsplit (l.dropWhile isWS)
  · exact fun c hc => List.mem_takeWhile_imp hc
  · intro c hc
    exact List.mem_takeWhile_imp (List.mem_reverse.mp hc)
  · have hrfix := dropWhile_ws_idem l
    have hr := hsplit (l.dropWhile isWS)
    rcases hts : trimChars l with _ | ⟨c, t'⟩
    · rfl
    · have htl : ((l.dropWhile isWS).reverse.dropWhile isWS).reverse = c :: t' := hts
      rw [htl] at hr
      rw [hr, List.cons_append] at hrfix
      exact dropWhile_ws_fix_head (head_not_ws_of_fix hrfix)
  · show ((((l.dropWhile isWS).reverse.dropWhile isWS).reverse).reverse).dropWhile isWS =
        (((l.dropWhile isWS).reverse.dropWhile isWS).reverse).reverse
    rw [List.reverse_reverse]
    exact dropWhile_ws_idem (l.dropWhile isWS).reverse

theorem stripJsonFence_newline (x : List Char) :
    stripJsonFence ('`' :: '`' :: '`' :: '\n' :: x) = '`' :: '`' :: '`' :: '\n' :: x := by
  rcases x with _ | ⟨e, _ | ⟨f, _ | ⟨g, r⟩⟩⟩
  · rfl
  · rfl
  · rfl
  · have h : ('\n'.toLower == 'j') = false := by decide
    simp [stripJsonFence, h]

theorem dropWS_mid (w1 t w2 : List Char)
    (hw1 : ∀ c ∈ w1, isWS c = true) (hw2 : ∀ c ∈ w2, isWS c = true)
    (ht1 : t.dropWhile isWS = t) :
    ('\n' :: ((w1 ++ (t ++ w2)) ++ ('\n' :: '`' :: '`' :: '`' :: []))).dropWhile isWS =
      if t.isEmpty then ('`' :: '`' :: '`' :: [])
      else t ++ (w2 ++ ('\n' :: '`' :: '`' :: '`' :: [])) := by
  rw [List.dropWhile_cons, if_pos (by decide : isWS '\n' = true),
    List.append_assoc, List.append_assoc, dropWhile_ws_append w1 _ hw1]
  rcases t with _ | ⟨c, t'⟩
  · rw [List.nil_append, dropWhile_ws_append w2 _ hw2]
    rfl
  · have hc : isWS c = false := head_not_ws_of_fix ht1
    rw [List.cons_append, dropWhile_ws_fix_head hc]
    simp

theorem cleanChars_no_fence (w1 t w2 : List Char)
    (hw1 : ∀ c ∈ w1, isWS c = true) (hw2 : ∀ c ∈ w2, isWS c = true)
    (ht1 : t.dropWhile isWS = t) (ht2 : t.reverse.dropWhile isWS = t.reverse)
    (hs : fenceAtStart t = false) (he : fenceAtEnd t = false) :
    cleanChars (w1 ++ (t ++ w2)) = t := by
  have hfs : fenceAtStart (w1 ++ (t ++ w2)) = false :=
    fenceAtStart_sandwich w1 t w2 hw1 hw2 hs
  have hfe : fenceAtEnd (w1 ++ (t ++ w2)) = false := by
    unfold fenceAtEnd
    rw [List.reverse_append, List.reverse_append]
    rw [List.append_assoc]
    exact fenceAtStart_sandwich w2.reverse t.reverse w1.reverse
      (fun c hc => hw2 c (List.mem_reverse.mp hc))
      (fun c hc => hw1 c (List.mem_reverse.mp hc)) he
  unfold cleanChars
  rw [stripJsonFence_id _ hfs, stripOpenFence_id _ hfs, stripCloseFence_id _ hfe]
  exact trimChars_decomp w1 t w2 hw1 hw2 ht1 ht2

theorem closeTrim_tail (w1 t w2 : List Char)
    (hw1 : ∀ c ∈ w1, isWS c = true) (hw2 : ∀ c ∈ w2, isWS c = true)
    (ht1 : t.dropWhile isWS = t) (ht2 : t.reverse.dropWhile isWS = t.reverse)
    (hs : fenceAtStart t = false) :
    trimChars (stripCloseFence (stripOpenFence
      (('\n' :: ((w1 ++ (t ++ w2)) ++ ('\n' :: '`' :: '`' :: '`' :: []))).dropWhile isWS))) = t ∧
    trimChars (stripCloseFence
      (('\n' :: ((w1 ++ (t ++ w2)) ++ ('\n' :: '`' :: '`' :: '`' :: []))).dropWhile isWS)) = t := by
  rw [dropWS_mid w1 t w2 hw1 hw2 ht1]
  rcases t with _ | ⟨c, t'⟩
  · constructor
    · rfl
    · rfl
  · rw [if_neg (by simp : ¬ (((c :: t').isEmpty : Bool) = true))]
    have hopen : stripOpenFence ((c :: t') ++ (w2 ++ ('\n' :: '`' :: '`' :: '`' :: []))) =
        (c :: t') ++ (w2 ++ ('\n' :: '`' :: '`' :: '`' :: [])) := by
      apply stripOpenFence_id
      have hx : w2 ++ ('\n' :: '`' :: '`' :: '`' :: []) =
          (w2 ++ ['\n']) ++ ('`' :: '`' :: '`' :: []) := by simp
      rw [hx]
      refine fenceAtStart_append_padded (c :: t') (w2 ++ ['\n']) ('`' :: '`' :: '`' :: []) hs
        ?_ (by simp)
      intro x hx2
      rcases List.mem_append.mp hx2 with h | h
      · exact hw2 x h
      · simp at h
        subst h
        decide
    have hrev : ((c :: t') ++ (w2 ++ ('\n' :: '`' :: '`' :: '`' :: []))).reverse =
        '`' :: '`' :: '`' :: ('\n' :: (w2.reverse ++ (c :: t').reverse)) := by
      rw [List.reverse_append, List.reverse_append]
      simp
    have hclose : stripCloseFence ((c :: t') ++ (w2 ++ ('\n' :: '`' :: '`' :: '`' :: []))) =
        c :: t' := by
      rw [stripCloseFence_of_rev _ _ hrev,
        List.dropWhile_cons, if_pos (by decide : isWS '\n' = true),
        dropWhile_ws_append _ _ (fun x hx => hw2 x (List.mem_reverse.mp hx)),
        ht2, List.reverse_reverse]
    constructor
    · rw [hopen, hclose]
      exact trimChars_fix (c :: t') ht1 ht2
    · rw [hclose]
      exact trimChars_fix (c :: t') ht1 ht2

theorem cleanChars_json_wrap (w1 t w2 : List Char)
    (hw1 : ∀ c ∈ w1, isWS c = true) (hw2 : ∀ c ∈ w2, isWS c = true)
    (ht1 : t.dropWhile isWS = t) (ht2 : t.reverse.dropWhile isWS = t.reverse)
    (hs : fenceAtStart t = false) :
    cleanChars ('`' :: '`' :: '`' :: 'j' :: 's' :: 'o' :: 'n' :: '\n' ::
      ((w1 ++ (t ++ w2)) ++ ('\n' :: '`' :: '`' :: '`' :: []))) = t := by
  unfold cleanChars
  have hj : stripJsonFence ('`' :: '`' :: '`' :: 'j' :: 's' :: 'o' :: 'n' :: '\n' ::
      ((w1 ++ (t ++ w2)) ++ ('\n' :: '`' :: '`' :: '`' :: []))) =
      ('\n' :: ((w1 ++ (t ++ w2)) ++ ('\n' :: '`' :: '`' :: '`' :: []))).dropWhile isWS := rfl
  rw [hj]
  exact (closeTrim_tail w1 t w2 hw1 hw2 ht1 ht2 hs).1

theorem cleanChars_bare_wrap (w1 t w2 : List Char)
    (hw1 : ∀ c ∈ w1, isWS c = true) (hw2 : ∀ c ∈ w2, isWS c = true)
    (ht1 : t.dropWhile isWS = t) (ht2 : t.reverse.dropWhile isWS = t.reverse)
    (hs : fenceAtStart t = false) :
    cleanChars ('`' :: '`' :: '`' :: '\n' ::
      ((w1 ++ (t ++ w2)) ++ ('\n' :: '`' :: '`' :: '`' :: []))) = t := by
  unfold cleanChars
  rw [stripJsonFence_newline]
  have ho : stripOpenFence ('`' :: '`' :: '`' :: '\n' ::
      ((w1 ++ (t ++ w2)) ++ ('\n' :: '`' :: '`' :: '`' :: []))) =
      ('\n' :: ((w1 ++ (t ++ w2)) ++ ('\n' :: '`' :: '`' :: '`' :: []))).dropWhile isWS := rfl
  rw [ho]
  exact (closeTrim_tail w1 t w2 hw1 hw2 ht1 ht2 hs).2

/-- C6 counterexample: a raw response that itself ends in a code fence is
normalized differently with and without the wrapping fence (the wrapped
form keeps the response's own trailing fence). -/
theorem C6_counterexample :
    ¬ (cleanText (fenceWrap "```json" "x```") = cleanText "x```") := by decide

/-- C6 amended: for every raw model response whose trimmed text neither
starts nor ends with a code fence of three backticks, normalizing the
response wrapped in a leading ```json or ``` fence and a trailing ```
fence is byte-identical to normalizing the unwrapped response. -/
theorem C6_fence_normalization (s : String)
    (h1 : fenceAtStart (trimChars s.data) = false)
    (h2 : fenceAtEnd (trimChars s.data) = false) :
    cleanText (fenceWrap "```json" s) = cleanText s ∧
    cleanText (fenceWrap "```" s) = cleanText s := by
  obtain ⟨w1, w2, hdec, hw1, hw2, ht1, ht2⟩ := trim_decomposition s.data
  have hplain : cleanChars s.data = trimChars s.data := by
    conv_lhs => rw [hdec]
    exact cleanChars_no_fence w1 _ w2 hw1 hw2 ht1 ht2 h1 h2
  constructor
  · apply String.ext
    show cleanChars (fenceWrap "```json" s).data = cleanChars s.data
    have hdata : (fenceWrap "```json" s).data =
        '`' :: '`' :: '`' :: 'j' :: 's' :: 'o' :: 'n' :: '\n' ::
          (s.data ++ ('\n' :: '`' :: '`' :: '`' :: [])) := by
      unfold fenceWrap
      rw [String.data_append, String.data_append, String.data_append, String.data_append]
      simp only [List.append_assoc]
      rfl
    rw [hdata, hplain]
    conv_lhs => rw [hdec]
    exact cleanChars_json_wrap w1 _ w2 hw1 hw2 ht1 ht2 h1
  · apply String.ext
    show cleanChars (fenceWrap "```" s).data = cleanChars s.data
    have hdata : (fenceWrap "```" s).data =
        '`' :: '`' :: '`' :: '\n' ::
          (s.data ++ ('\n' :: '`' :: '`' :: '`' :: [])) := by
      unfold fenceWrap
      rw [String.data_append, String.data_append, String.data_append, String.data_append]
      simp only [List.append_assoc]
      rfl
    rw [hdata, hplain]
    conv_lhs => rw [hdec]
    exact cleanChars_bare_wrap w1 _ w2 hw1 hw2 ht1 ht2 h1

/-- C6 amended witness at a concrete fence-free response. -/
theorem C6_fence_normalization_witness :
    cleanText (fenceWrap "```json" "hello world") = cleanText "hello world" :=
  (C6_fence_normalization "hello world" (by decide) (by decide)).1

end SuperX
